import Mathlib

/-!
Shallow embedding of the weather API handler service
(`src/api_handler/app.py` of the k8s-manifests-weather-app repository).

The embedding models:
  * the persistence layer (`DatabaseManager`): the `locations` and `weather`
    tables as in-memory lists of rows, with the SQL semantics the code relies
    on (three-valued `=` comparison against NULL, the UNIQUE constraint with
    NULLs distinct, NOT NULL columns, SERIAL ids, and the
    `ORDER BY ... DESC LIMIT ...` query of `get_recent_weather_data`);
  * the weather fetcher `get_weather_for_city`, over an explicit model of the
    possible HTTP outcomes (timeout, final status code with an optional parsed
    JSON body, any other connection-level exception);
  * the fan-out orchestrator `process_weather_request`, serialised in task
    completion order (the counts and flags proved below are independent of
    that order);
  * the rate limiter `rate_limited_request`, over a logical wall clock
    (`time.sleep d` advances the clock by exactly `d`; the elapsed time
    between two acquisitions is an arbitrary nonnegative rational).

Numeric DECIMAL columns are modelled as `Option ℚ` (NULL-able rationals),
BIGINT/INTEGER columns as `Option Int` (or `Int`/`String` for NOT NULL
columns), and Python dict `.get` accesses as `Option` fields.
-/

/-- The provider's `location` JSON object, as consumed by
`insert_or_get_location` via `location_data.get(...)` (every access can
yield `None`, hence every field is an `Option`). -/
structure LocationData where
  name : Option String
  region : Option String
  country : Option String
  lat : Option ℚ
  lon : Option ℚ
  tz_id : Option String
  localtime_epoch : Option Int
  localtime_string : Option String
deriving DecidableEq

/-- The provider's `current.condition` JSON object. -/
structure ConditionData where
  text : Option String
  icon : Option String
  code : Option Int
deriving DecidableEq

/-- The provider's `current` JSON object, as consumed by
`insert_weather_data` via `current.get(...)`. -/
structure CurrentData where
  last_updated_epoch : Option Int
  last_updated : Option String
  temp_c : Option ℚ
  temp_f : Option ℚ
  is_day : Option Int
  condition : Option ConditionData
  wind_mph : Option ℚ
  wind_kph : Option ℚ
  wind_degree : Option Int
  wind_dir : Option String
  pressure_mb : Option ℚ
  pressure_in : Option ℚ
  precip_mm : Option ℚ
  precip_in : Option ℚ
  humidity : Option Int
  cloud : Option Int
  feelslike_c : Option ℚ
  feelslike_f : Option ℚ
  vis_km : Option ℚ
  vis_miles : Option ℚ
  uv : Option ℚ
  gust_mph : Option ℚ
  gust_kph : Option ℚ
deriving DecidableEq

/-- A parsed provider JSON body.  `location`/`current` are `none` when the
corresponding top-level key is absent (the structural-validation check of
`get_weather_for_city`).  `extraErrorKey`/`extraMessage` record whether the
body also carries top-level `error`/`message` keys, which is what the
classification loop of `process_weather_request` inspects. -/
structure ProviderBody where
  location : Option LocationData
  current : Option CurrentData
  extraErrorKey : Bool
  extraMessage : Option String
deriving DecidableEq

/-- One row of the `locations` table (schema from `_init_database`):
`name` and `country` are NOT NULL, `region` is NULL-able, and
`UNIQUE(name, country, region)` holds with NULL regions distinct. -/
structure LocationRow where
  id : Nat
  name : String
  region : Option String
  country : String
  lat : Option ℚ
  lon : Option ℚ
  tz_id : Option String
  localtime_epoch : Option Int
  localtime_string : Option String
deriving DecidableEq

/-- One row of the `weather` table (schema from `_init_database`):
`last_updated_epoch` and `last_updated` are NOT NULL; `created_at` is the
insertion timestamp, modelled as a strictly increasing sequence number. -/
structure WeatherRow where
  id : Nat
  location_id : Nat
  last_updated_epoch : Int
  last_updated : String
  temp_c : Option ℚ
  temp_f : Option ℚ
  is_day : Option Int
  condition_text : Option String
  condition_icon : Option String
  condition_code : Option Int
  wind_mph : Option ℚ
  wind_kph : Option ℚ
  wind_degree : Option Int
  wind_dir : Option String
  pressure_mb : Option ℚ
  pressure_in : Option ℚ
  precip_mm : Option ℚ
  precip_in : Option ℚ
  humidity : Option Int
  cloud : Option Int
  feelslike_c : Option ℚ
  feelslike_f : Option ℚ
  vis_km : Option ℚ
  vis_miles : Option ℚ
  uv : Option ℚ
  gust_mph : Option ℚ
  gust_kph : Option ℚ
  created_at : Nat
deriving DecidableEq

/-- The relational store: the two tables plus the SERIAL id counters and the
`created_at` sequence. -/
structure DBState where
  locations : List LocationRow
  weather : List WeatherRow
  nextLocId : Nat
  nextWeatherId : Nat
  nextCreated : Nat
deriving DecidableEq

/-- The freshly initialised database (`_init_database`: empty tables,
SERIAL counters starting at 1). -/
def db0 : DBState := ⟨[], [], 1, 1, 1⟩

/-- SQL `column = %s` comparison of a NOT NULL string column against a
possibly-NULL parameter: a NULL parameter compares as unknown, never true. -/
def sqlEqName (p : Option String) (v : String) : Bool :=
  match p with
  | some s => s == v
  | none => false

/-- SQL `region = %s` comparison where both the column and the parameter are
NULL-able: the comparison is true only when both sides are non-NULL and
equal (SQL three-valued logic; `NULL = NULL` is unknown).  The same predicate
also characterises a conflict under `UNIQUE(name, country, region)`, since
PostgreSQL treats NULL regions as distinct. -/
def sqlEqRegion (p q : Option String) : Bool :=
  match p, q with
  | some a, some b => a == b
  | _, _ => false

/-- The `WHERE name = %s AND country = %s AND region = %s` predicate of
`insert_or_get_location`'s SELECT, applied to a row. -/
def matchesIdentity (d : LocationData) (r : LocationRow) : Bool :=
  sqlEqName d.name r.name && sqlEqName d.country r.country &&
    sqlEqRegion d.region r.region

/-- The UPDATE of `insert_or_get_location`'s found-branch: refresh the
mutable fields (coordinates, timezone, local time) from the new data,
leaving the identity fields untouched. -/
def refreshRow (d : LocationData) (x : LocationRow) : LocationRow :=
  { x with lat := d.lat, lon := d.lon, tz_id := d.tz_id,
           localtime_epoch := d.localtime_epoch,
           localtime_string := d.localtime_string }

/-- Model of `UPDATE locations SET ... WHERE id = %s`: refresh every row whose id
matches (ids are unique in any state reachable from `db0`). -/
def updateWhere (d : LocationData) (i : Nat) (l : List LocationRow) :
    List LocationRow :=
  l.map fun x => if x.id = i then refreshRow d x else x

/-- The new row INSERTed by `insert_or_get_location` when the lookup finds
nothing: the generated SERIAL id plus the provided field values. -/
def newLocRow (db : DBState) (nm co : String) (d : LocationData) :
    LocationRow :=
  ⟨db.nextLocId, nm, d.region, co, d.lat, d.lon, d.tz_id,
   d.localtime_epoch, d.localtime_string⟩

/-- Model of `DatabaseManager.insert_or_get_location` (app.py lines 158-217):
SELECT by `(name, country, region)`; if a row is found, UPDATE its mutable
fields and return its id; otherwise INSERT a new row (subject to the NOT
NULL and UNIQUE constraints) and return the generated id.  A constraint
violation or connection error raises, modelled as `.error`. -/
def insert_or_get_location (db : DBState) (d : LocationData) :
    Except String (Nat × DBState) :=
  match db.locations.find? (matchesIdentity d) with
  | some r =>
      .ok (r.id, { db with locations := updateWhere d r.id db.locations })
  | none =>
      match d.name, d.country with
      | some nm, some co =>
          if db.locations.any (matchesIdentity d) then
            .error "duplicate key value violates unique constraint"
          else
            .ok (db.nextLocId,
              { db with
                locations := db.locations ++ [newLocRow db nm co d],
                nextLocId := db.nextLocId + 1 })
      | _, _ => .error "null value violates not-null constraint"

/-- Access `current.get(field)` after `current = weather_data.get(..., dict())`:
a missing `current` key behaves as an empty dict, every access yielding
`None`. -/
def currentField {α : Type} (wd : ProviderBody)
    (f : CurrentData → Option α) : Option α :=
  wd.current.bind f

/-- Access `condition.get(field)` after the condition sub-dict is read with
a default of the empty dict. -/
def conditionField {α : Type} (wd : ProviderBody)
    (f : ConditionData → Option α) : Option α :=
  (wd.current.bind fun c => c.condition).bind f

/-- Model of `DatabaseManager.insert_weather_data` (app.py lines 219-275): INSERT one
immutable reading row tied to `location_id`, storing the normalized fields.
The INSERT raises on a foreign-key violation (`location_id` must reference
an existing location) or a NOT NULL violation (`last_updated_epoch` and
`last_updated` are NOT NULL). -/
def insert_weather_data (db : DBState) (location_id : Nat)
    (wd : ProviderBody) : Except String (Nat × DBState) :=
  if db.locations.any fun l => l.id == location_id then
    match currentField wd (fun c => c.last_updated_epoch),
          currentField wd (fun c => c.last_updated) with
    | some ep, some lu =>
        .ok (db.nextWeatherId,
          { db with
            weather := db.weather ++
              [{ id := db.nextWeatherId
                 location_id := location_id
                 last_updated_epoch := ep
                 last_updated := lu
                 temp_c := currentField wd fun c => c.temp_c
                 temp_f := currentField wd fun c => c.temp_f
                 is_day := currentField wd fun c => c.is_day
                 condition_text := conditionField wd fun c => c.text
                 condition_icon := conditionField wd fun c => c.icon
                 condition_code := conditionField wd fun c => c.code
                 wind_mph := currentField wd fun c => c.wind_mph
                 wind_kph := currentField wd fun c => c.wind_kph
                 wind_degree := currentField wd fun c => c.wind_degree
                 wind_dir := currentField wd fun c => c.wind_dir
                 pressure_mb := currentField wd fun c => c.pressure_mb
                 pressure_in := currentField wd fun c => c.pressure_in
                 precip_mm := currentField wd fun c => c.precip_mm
                 precip_in := currentField wd fun c => c.precip_in
                 humidity := currentField wd fun c => c.humidity
                 cloud := currentField wd fun c => c.cloud
                 feelslike_c := currentField wd fun c => c.feelslike_c
                 feelslike_f := currentField wd fun c => c.feelslike_f
                 vis_km := currentField wd fun c => c.vis_km
                 vis_miles := currentField wd fun c => c.vis_miles
                 uv := currentField wd fun c => c.uv
                 gust_mph := currentField wd fun c => c.gust_mph
                 gust_kph := currentField wd fun c => c.gust_kph
                 created_at := db.nextCreated }],
            nextWeatherId := db.nextWeatherId + 1,
            nextCreated := db.nextCreated + 1 })
    | _, _ => .error "null value violates not-null constraint"
  else .error "violates foreign key constraint"

/-- The row shape produced by the SELECT of `get_recent_weather_data`
(`locations JOIN weather`, app.py lines 286-302). -/
structure JoinedRow where
  name : String
  region : Option String
  country : String
  lat : Option ℚ
  lon : Option ℚ
  tz_id : Option String
  localtime_epoch : Option Int
  localtime_string : Option String
  last_updated_epoch : Int
  last_updated : String
  temp_c : Option ℚ
  temp_f : Option ℚ
  is_day : Option Int
  condition_text : Option String
  condition_icon : Option String
  condition_code : Option Int
  wind_mph : Option ℚ
  wind_kph : Option ℚ
  wind_degree : Option Int
  wind_dir : Option String
  pressure_mb : Option ℚ
  pressure_in : Option ℚ
  precip_mm : Option ℚ
  precip_in : Option ℚ
  humidity : Option Int
  cloud : Option Int
  feelslike_c : Option ℚ
  feelslike_f : Option ℚ
  vis_km : Option ℚ
  vis_miles : Option ℚ
  uv : Option ℚ
  gust_mph : Option ℚ
  gust_kph : Option ℚ
  created_at : Nat
deriving DecidableEq

/-- Model of `JOIN weather w ON l.id = w.location_id`, projecting the selected
columns. -/
def joinRow (l : LocationRow) (w : WeatherRow) : JoinedRow :=
  { name := l.name, region := l.region, country := l.country,
    lat := l.lat, lon := l.lon, tz_id := l.tz_id,
    localtime_epoch := l.localtime_epoch,
    localtime_string := l.localtime_string,
    last_updated_epoch := w.last_updated_epoch,
    last_updated := w.last_updated,
    temp_c := w.temp_c, temp_f := w.temp_f, is_day := w.is_day,
    condition_text := w.condition_text, condition_icon := w.condition_icon,
    condition_code := w.condition_code,
    wind_mph := w.wind_mph, wind_kph := w.wind_kph,
    wind_degree := w.wind_degree, wind_dir := w.wind_dir,
    pressure_mb := w.pressure_mb, pressure_in := w.pressure_in,
    precip_mm := w.precip_mm, precip_in := w.precip_in,
    humidity := w.humidity, cloud := w.cloud,
    feelslike_c := w.feelslike_c, feelslike_f := w.feelslike_f,
    vis_km := w.vis_km, vis_miles := w.vis_miles, uv := w.uv,
    gust_mph := w.gust_mph, gust_kph := w.gust_kph,
    created_at := w.created_at }

/-- Comparison for `ORDER BY w.last_updated_epoch DESC, w.created_at DESC`: `a` sorts no
later than `b`.  `created_at` values are unique in any state reachable from
`db0`, so the order is total there. -/
def rowBefore (a b : JoinedRow) : Bool :=
  decide (b.last_updated_epoch < a.last_updated_epoch) ||
    (a.last_updated_epoch == b.last_updated_epoch &&
      decide (b.created_at ≤ a.created_at))

/-- Insertion step of the sort realising the SQL ORDER BY. -/
def insertRow (a : JoinedRow) : List JoinedRow → List JoinedRow
  | [] => [a]
  | b :: rest => if rowBefore a b then a :: b :: rest else b :: insertRow a rest

/-- Sort realising `ORDER BY w.last_updated_epoch DESC, w.created_at DESC`. -/
def sortRows : List JoinedRow → List JoinedRow
  | [] => []
  | a :: rest => insertRow a (sortRows rest)

/-- The full SELECT of `get_recent_weather_data`: join the two tables, keep
rows whose location name is `ANY` of the requested city names, order by
observation epoch then insertion time (both descending), and apply
`LIMIT limit * len(city_names)`. -/
def fetchRows (db : DBState) (city_names : List String) (limit : Nat) :
    List JoinedRow :=
  (sortRows (db.weather.filterMap fun w =>
    match db.locations.find? fun l => l.id == w.location_id with
    | some l => if city_names.contains l.name then some (joinRow l w) else none
    | none => none)).take (limit * city_names.length)

/-- Model of `null_filler = lambda x: float(x) if x else None` (app.py line 308):
NULL stays NULL, and a stored value of exactly zero is falsy in Python, so
it is also mapped to NULL. -/
def null_filler (x : Option ℚ) : Option ℚ :=
  match x with
  | none => none
  | some v => if v = 0 then none else some v

/-- The nested `condition` sub-block of a reconstructed view. -/
structure ConditionView where
  text : Option String
  icon : Option String
  code : Option Int
deriving DecidableEq

/-- The `location` block of a reconstructed view. -/
structure LocationView where
  name : String
  region : Option String
  country : String
  lat : Option ℚ
  lon : Option ℚ
  tz_id : Option String
  localtime_epoch : Option Int
  localtime_string : Option String
deriving DecidableEq

/-- The `current` block of a reconstructed view. -/
structure CurrentView where
  last_updated_epoch : Int
  last_updated : String
  temp_c : Option ℚ
  temp_f : Option ℚ
  is_day : Option Int
  condition : ConditionView
  wind_mph : Option ℚ
  wind_kph : Option ℚ
  wind_degree : Option Int
  wind_dir : Option String
  pressure_mb : Option ℚ
  pressure_in : Option ℚ
  precip_mm : Option ℚ
  precip_in : Option ℚ
  humidity : Option Int
  cloud : Option Int
  feelslike_c : Option ℚ
  feelslike_f : Option ℚ
  vis_km : Option ℚ
  vis_miles : Option ℚ
  uv : Option ℚ
  gust_mph : Option ℚ
  gust_kph : Option ℚ
deriving DecidableEq

/-- The provider-shaped merged location+reading view (`weather_item`,
app.py lines 314-354). -/
structure WeatherItem where
  location : LocationView
  current : CurrentView
deriving DecidableEq

/-- The `weather_item` dict built at app.py lines 314-354 from one joined
row: `null_filler` is applied to exactly the DECIMAL columns, the remaining
columns are passed through. -/
def reconstructWeatherItem (r : JoinedRow) : WeatherItem :=
  { location :=
      { name := r.name, region := r.region, country := r.country,
        lat := null_filler r.lat, lon := null_filler r.lon,
        tz_id := r.tz_id, localtime_epoch := r.localtime_epoch,
        localtime_string := r.localtime_string },
    current :=
      { last_updated_epoch := r.last_updated_epoch,
        last_updated := r.last_updated,
        temp_c := null_filler r.temp_c, temp_f := null_filler r.temp_f,
        is_day := r.is_day,
        condition := { text := r.condition_text, icon := r.condition_icon,
                       code := r.condition_code },
        wind_mph := null_filler r.wind_mph, wind_kph := null_filler r.wind_kph,
        wind_degree := r.wind_degree, wind_dir := r.wind_dir,
        pressure_mb := null_filler r.pressure_mb,
        pressure_in := null_filler r.pressure_in,
        precip_mm := null_filler r.precip_mm,
        precip_in := null_filler r.precip_in,
        humidity := r.humidity, cloud := r.cloud,
        feelslike_c := null_filler r.feelslike_c,
        feelslike_f := null_filler r.feelslike_f,
        vis_km := null_filler r.vis_km, vis_miles := null_filler r.vis_miles,
        uv := null_filler r.uv, gust_mph := null_filler r.gust_mph,
        gust_kph := null_filler r.gust_kph },
  }

/-- Model of `DatabaseManager.get_recent_weather_data` (app.py lines 277-361),
translated faithfully INCLUDING the mis-indentation at lines 310-312: the
`if city_name not in city_data:` statement is at the same indentation level
as the `for row in results:` loop, hence OUTSIDE it.  The loop body is just
`city_name = row['name']`, so after the loop `city_name` and `row` hold the
values from the LAST row of the ordered result set; the single `if` then
builds exactly one `weather_item` from that last row (the `not in` test is
vacuously true since `city_data` is still empty).  When the result set is
empty the loop never runs and reading `city_name` raises
`UnboundLocalError`, re-raised by the enclosing `except` after rollback;
this is modelled as `.error`. -/
def get_recent_weather_data (db : DBState) (city_names : List String)
    (limit : Nat := 10) : Except String (List WeatherItem) :=
  match (fetchRows db city_names limit).getLast? with
  | none =>
      .error "UnboundLocalError: local variable \x27city_name\x27 referenced before assignment"
  | some row => .ok [reconstructWeatherItem row]

/-- Outcome of the HTTP round trip performed by `rate_limited_request` /
`requests.get` for one city:
  * `timeout`: `requests.exceptions.Timeout`;
  * `status code body`: a final HTTP response with the given status code;
    `body = none` means `response.json()` raises (invalid JSON body);
  * `connError msg`: any other exception raised by the request. -/
inductive HTTPResult where
  | timeout : HTTPResult
  | status (code : Nat) (body : Option ProviderBody) : HTTPResult
  | connError (msg : String) : HTTPResult
deriving DecidableEq

/-- The `Optional[Dict]` second component of `get_weather_for_city`'s
return value:
  * `invalid`: Python `None` (structural validation failed);
  * `errDict tag msg`: `{"error": tag, "message": msg}`;
  * `payload d`: the provider body itself. -/
inductive FetchValue where
  | invalid : FetchValue
  | errDict (tag msg : String) : FetchValue
  | payload (d : ProviderBody) : FetchValue
deriving DecidableEq

/-- Model of `get_weather_for_city` (app.py lines 392-447): perform the (rate
limited) HTTP call, `raise_for_status` (which raises `HTTPError` exactly for
status codes 400-599), parse the JSON body, validate that the `location` and
`current` keys are present, then store the reading; a database exception
during the storage step is caught, logged and swallowed (the `dbFault` flag
injects a connection-level failure of that step).  Exceptions from the HTTP
call are classified by the `except` chain: `Timeout`, then `HTTPError` by
status code (400 / 401 / 403 / other), then any other exception.  The
returned pair is `(city, value)`; the final `DBState` is the side effect. -/
def get_weather_for_city (db : DBState) (dbFault : Bool) (city : String)
    (resp : HTTPResult) : (String × FetchValue) × DBState :=
  match resp with
  | .timeout =>
      ((city, .errDict "timeout" ("Request timeout for " ++ city)), db)
  | .connError msg =>
      ((city, .errDict "unexpected" ("Unexpected error: " ++ msg)), db)
  | .status code body =>
      if 400 ≤ code ∧ code < 600 then
        if code = 400 then
          ((city, .errDict "not_found"
            ("City \x27" ++ city ++ "\x27 not found")), db)
        else if code = 401 then
          ((city, .errDict "auth" "Invalid API key"), db)
        else if code = 403 then
          ((city, .errDict "limit" "API request limit exceeded"), db)
        else
          ((city, .errDict "http"
            ("HTTP " ++ toString code ++ " error for " ++ city)), db)
      else
        match body with
        | none =>
            ((city, .errDict "unexpected"
              "Unexpected error: response body is not valid JSON"), db)
        | some d =>
            match d.location with
            | none => ((city, .invalid), db)
            | some loc =>
                match d.current with
                | none => ((city, .invalid), db)
                | some _ =>
                    let db' :=
                      if dbFault then db
                      else
                        match insert_or_get_location db loc with
                        | .error _ => db
                        | .ok (lid, db1) =>
                            match insert_weather_data db1 lid d with
                            | .error _ => db1
                            | .ok (_, db2) => db2
                    ((city, .payload d), db')

/-- The fetch value of `get_weather_for_city`, which depends only on the
city name and the HTTP outcome (proved below: the per-city value returned
to the orchestrator is independent of the database state and of storage
failures). -/
def fetch_value (city : String) (resp : HTTPResult) : FetchValue :=
  (get_weather_for_city db0 false city resp).1.2

/-- A fetch task as seen by one worker of the thread pool: the submitted
city name, the HTTP outcome of its provider call, and whether the storage
step's database connection fails for it. -/
def FetchTask : Type := String × HTTPResult × Bool

/-- Accumulator of the `as_completed` collection loop of
`process_weather_request`: the `results`, `errors` and `successful_cities`
lists, plus the database state threaded through the storage side effects. -/
structure ProcAcc where
  results : List ProviderBody
  errors : List String
  successful_cities : List String
  db : DBState
deriving DecidableEq

/-- One iteration of the `as_completed` loop (app.py lines 469-484): run the
fetch, then classify — `None` gives a "No data received" error entry, a dict
with an `error` key gives an error entry built from its `message` value
(a missing `message` raises `KeyError`, caught by the surrounding `except`
as an "Unexpected processing error" entry), and anything else is a success
appended to `results` and `successful_cities`. -/
def procStep (acc : ProcAcc) (t : FetchTask) : ProcAcc :=
  let r := get_weather_for_city acc.db t.2.2 t.1 t.2.1
  let city := r.1.1
  match r.1.2 with
  | .invalid =>
      { acc with errors := acc.errors ++ ["No data received for " ++ city],
                 db := r.2 }
  | .errDict _ msg =>
      { acc with errors := acc.errors ++ [city ++ ": " ++ msg], db := r.2 }
  | .payload d =>
      if d.extraErrorKey then
        match d.extraMessage with
        | some m =>
            { acc with errors := acc.errors ++ [city ++ ": " ++ m],
                       db := r.2 }
        | none =>
            { acc with
              errors := acc.errors ++ [city ++ ": Unexpected processing error"],
              db := r.2 }
      else
        { acc with results := acc.results ++ [d],
                   successful_cities := acc.successful_cities ++ [city],
                   db := r.2 }

/-- The aggregate response of `process_weather_request` (app.py lines
496-504).  The `request_id` (a fresh UUID) and the two timestamps are
environment-supplied values irrelevant to the claims and are omitted. -/
structure BatchResponse where
  success : Bool
  successful_cities : Nat
  failed_cities : Nat
  errors : List String
deriving DecidableEq

/-- Model of `process_weather_request` (app.py lines 449-507): dispatch one fetch
task per submitted city and collect the classifications.  `as_completed`
yields the futures in completion order; this model serialises the tasks in
list order — one admissible completion order — and the counts, flags and
error multiset proved about below are invariant under reordering.  Returns
the aggregate response (`success` is `len(results) > 0`,
`successful_cities` is `len(results)`, `failed_cities` is `len(errors)`)
and the final database state. -/
def process_weather_request (db : DBState) (tasks : List FetchTask) :
    BatchResponse × DBState :=
  let acc := tasks.foldl procStep ⟨[], [], [], db⟩
  ({ success := decide (0 < acc.results.length),
     successful_cities := acc.results.length,
     failed_cities := acc.errors.length,
     errors := acc.errors }, acc.db)

/-- Whether a task is classified as successful by the collection loop:
its fetch value is a plain provider payload with no top-level `error` key. -/
def fetchSucceeds (t : FetchTask) : Bool :=
  match fetch_value t.1 t.2.1 with
  | .payload d => !d.extraErrorKey
  | _ => false

/-- Constant `MIN_REQUEST_INTERVAL = 0.1` (app.py line 367): 100 ms between
outbound provider calls. -/
def MIN_REQUEST_INTERVAL : ℚ := 1 / 10

/-- State of the rate limiter gate: the logical wall clock (the value
`time.time()` would return now) and the shared `last_request_time`
scalar guarded by `request_lock`. -/
structure RLState where
  clock : ℚ
  last_request_time : ℚ
deriving DecidableEq

/-- The rate-limiting prologue of `rate_limited_request` (app.py lines
376-390), executed under `request_lock`: read the clock, compute the time
since the previous granted call, sleep for the remainder of
`MIN_REQUEST_INTERVAL` if it has not yet elapsed, then record the new call
time.  `time.sleep d` advances the logical clock by exactly `d`. -/
def rate_limited_request (s : RLState) : RLState :=
  let current_time := s.clock
  let time_since_last := current_time - s.last_request_time
  let clock' :=
    if time_since_last < MIN_REQUEST_INTERVAL then
      current_time + (MIN_REQUEST_INTERVAL - time_since_last)
    else
      current_time
  { clock := clock', last_request_time := clock' }

/-- A sequence of acquisitions of the rate-limiter gate: `ds` lists the
(nonnegative) wall-clock time elapsing between successive acquisitions
(callers' own work); returns the final state and the recorded
`last_request_time` of each granted call, in order. -/
def runAcquires (s : RLState) : List ℚ → RLState × List ℚ
  | [] => (s, [])
  | d :: ds =>
      let s1 := rate_limited_request { s with clock := s.clock + d }
      let rest := runAcquires s1 ds
      (rest.1, s1.last_request_time :: rest.2)

/-- A `current` object with every key absent. -/
def emptyCurrent : CurrentData :=
  ⟨none, none, none, none, none, none, none, none, none, none, none, none,
   none, none, none, none, none, none, none, none, none, none, none⟩

/-- Provider `location` object for London. -/
def londonLoc : LocationData :=
  ⟨some "London", some "City of London, Greater London",
   some "United Kingdom", some 51, some 0, some "Europe/London",
   some 1000, some "2024-01-01 10:00"⟩

/-- First (older) London reading: observation epoch 100. -/
def londonReading1 : ProviderBody :=
  ⟨some londonLoc,
   some { emptyCurrent with last_updated_epoch := some 100,
                            last_updated := some "2024-01-01 09:00",
                            temp_c := some 10 },
   false, none⟩

/-- Second (more recent) London reading: observation epoch 200. -/
def londonReading2 : ProviderBody :=
  ⟨some londonLoc,
   some { emptyCurrent with last_updated_epoch := some 200,
                            last_updated := some "2024-01-01 10:00",
                            temp_c := some 12 },
   false, none⟩

/-- The store after one `upsertLocation` for London followed by two
successive `appendReading` calls (epochs 100 then 200) — the scenario of
the spec's `getRecentReadings(["London"])` testable property. -/
def dbLondon : DBState :=
  match insert_or_get_location db0 londonLoc with
  | .error _ => db0
  | .ok (lid, d1) =>
      match insert_weather_data d1 lid londonReading1 with
      | .error _ => db0
      | .ok (_, d2) =>
          match insert_weather_data d2 lid londonReading2 with
          | .error _ => db0
          | .ok (_, d3) => d3

/-- Provider `location` object for a city with zero-valued measurements. -/
def zeroLoc : LocationData :=
  ⟨some "Zeroville", some "Flatland", some "Nowhere", some 0, some 0,
   some "UTC", some 2000, some "2024-01-02 00:00"⟩

/-- A reading whose temperature, precipitation, UV index and wind speed are
all exactly zero (stored as 0, not NULL). -/
def zeroReading : ProviderBody :=
  ⟨some zeroLoc,
   some { emptyCurrent with last_updated_epoch := some 300,
                            last_updated := some "2024-01-02 00:00",
                            temp_c := some 0, precip_mm := some 0,
                            uv := some 0, wind_mph := some 0,
                            humidity := some 40 },
   false, none⟩

/-- The store holding exactly the zero-valued Zeroville reading. -/
def dbZero : DBState :=
  match insert_or_get_location db0 zeroLoc with
  | .error _ => db0
  | .ok (lid, d1) =>
      match insert_weather_data d1 lid zeroReading with
      | .error _ => db0
      | .ok (_, d2) => d2

/-- A location whose `region` is NULL (the provider omits the key or sends
JSON null). -/
def springfieldNoRegion : LocationData :=
  ⟨some "Springfield", none, some "United States", some 40, some (-90),
   some "America/Chicago", some 3000, some "2024-01-03 12:00"⟩

/-- The store after the first `upsertLocation` call for the NULL-region
Springfield. -/
def dbSpringfield1 : DBState :=
  match insert_or_get_location db0 springfieldNoRegion with
  | .error _ => db0
  | .ok (_, d1) => d1

/-- Provider `location` object for Oslo. -/
def osloLoc : LocationData :=
  ⟨some "Oslo", some "Oslo", some "Norway", some 59, some 10,
   some "Europe/Oslo", some 4000, some "2024-01-04 08:00"⟩

/-- Provider `current` object for Oslo. -/
def osloCur : CurrentData :=
  { emptyCurrent with last_updated_epoch := some 400,
                      last_updated := some "2024-01-04 08:00",
                      temp_c := some (-3) }

/-- A structurally valid provider body (both `location` and `current`
present). -/
def osloBody : ProviderBody := ⟨some osloLoc, some osloCur, false, none⟩

/-- A malformed provider body: syntactically valid JSON with a `location`
block but no `current` key. -/
def noCurrentBody : ProviderBody := ⟨some londonLoc, none, false, none⟩


lemma get_weather_fst_independent (db db' : DBState) (f f' : Bool)
    (city : String) (resp : HTTPResult) :
    (get_weather_for_city db f city resp).1
      = (get_weather_for_city db' f' city resp).1 := by
  cases resp with
  | timeout => rfl
  | connError m => rfl
  | status code body =>
    simp only [get_weather_for_city]
    by_cases h : 400 ≤ code ∧ code < 600
    · simp only [if_pos h]
      by_cases h4 : code = 400
      · simp [h4]
      · by_cases h1 : code = 401
        · simp [h4, h1]
        · by_cases h3 : code = 403 <;> simp [h4, h1, h3]
    · simp only [if_neg h]
      cases body with
      | none => rfl
      | some d =>
        rcases hl : d.location with _ | loc
        · simp [hl]
        · rcases hc : d.current with _ | c <;> simp [hl, hc]

lemma get_weather_city (db : DBState) (f : Bool) (city : String)
    (resp : HTTPResult) :
    (get_weather_for_city db f city resp).1.1 = city := by
  cases resp with
  | timeout => rfl
  | connError m => rfl
  | status code body =>
    simp only [get_weather_for_city]
    by_cases h : 400 ≤ code ∧ code < 600
    · rw [if_pos h]
      by_cases h4 : code = 400
      · simp [h4]
      · by_cases h1 : code = 401
        · simp [h4, h1]
        · by_cases h3 : code = 403 <;> simp [h4, h1, h3]
    · rw [if_neg h]
      cases body with
      | none => rfl
      | some d =>
        rcases hl : d.location with _ | loc
        · simp [hl]
        · rcases hc : d.current with _ | c <;> simp [hl, hc]

lemma get_weather_fst (db : DBState) (f : Bool) (city : String)
    (resp : HTTPResult) :
    (get_weather_for_city db f city resp).1 = (city, fetch_value city resp) := by
  have h1 := get_weather_city db f city resp
  have h2 : (get_weather_for_city db f city resp).1.2 = fetch_value city resp := by
    unfold fetch_value
    rw [get_weather_fst_independent db db0 f false]
  exact Prod.ext h1 h2

lemma procStep_lengths (acc : ProcAcc) (t : FetchTask) :
    (procStep acc t).results.length
        = acc.results.length + (if fetchSucceeds t then 1 else 0)
    ∧ (procStep acc t).errors.length
        = acc.errors.length + (if fetchSucceeds t then 0 else 1) := by
  unfold procStep fetchSucceeds
  have h2 := get_weather_fst acc.db t.2.2 t.1 t.2.1
  cases hv : fetch_value t.1 t.2.1 with
  | invalid => simp [h2, hv]
  | errDict tag msg => simp [h2, hv]
  | payload d =>
    by_cases he : d.extraErrorKey
    · cases hm : d.extraMessage <;> simp [h2, hv, he, hm]
    · simp [h2, hv, he]

lemma foldl_procStep_lengths (tasks : List FetchTask) :
    ∀ acc : ProcAcc,
      (tasks.foldl procStep acc).results.length
          = acc.results.length + tasks.countP fetchSucceeds
      ∧ (tasks.foldl procStep acc).results.length
          + (tasks.foldl procStep acc).errors.length
          = acc.results.length + acc.errors.length + tasks.length := by
  induction tasks with
  | nil => intro acc; simp
  | cons t ts ih =>
    intro acc
    have hs := procStep_lengths acc t
    have hih := ih (procStep acc t)
    simp only [List.foldl_cons, List.countP_cons, List.length_cons]
    constructor
    · rw [hih.1, hs.1]
      by_cases h : fetchSucceeds t
      · simp [h]
        omega
      · simp [h]
    · rw [hih.2, hs.1, hs.2]
      by_cases h : fetchSucceeds t
      · simp [h]
        all_goals omega
      · simp [h]
        all_goals omega

lemma rate_limited_request_spacing (s : RLState) :
    s.last_request_time + MIN_REQUEST_INTERVAL
      ≤ (rate_limited_request s).last_request_time := by
  unfold rate_limited_request
  dsimp only
  by_cases h : s.clock - s.last_request_time < MIN_REQUEST_INTERVAL
  · rw [if_pos h]; linarith
  · rw [if_neg h]; linarith [not_lt.mp h]

lemma runAcquires_chain (ds : List ℚ) :
    ∀ s : RLState,
      List.Chain (fun a b => a + MIN_REQUEST_INTERVAL ≤ b)
        s.last_request_time (runAcquires s ds).2 := by
  induction ds with
  | nil => intro s; exact List.Chain.nil
  | cons d ds ih =>
    intro s
    have h1 := rate_limited_request_spacing { s with clock := s.clock + d }
    have h2 := ih (rate_limited_request { s with clock := s.clock + d })
    exact List.Chain.cons h1 h2

lemma chain_last_bound (c : ℚ) :
    ∀ (ts : List ℚ) (a b : ℚ),
      List.Chain (fun x y => x + c ≤ y) a ts → ts.getLast? = some b →
        a + ts.length * c ≤ b := by
  intro ts
  induction ts with
  | nil => intro a b _ hlast; simp at hlast
  | cons x xs ih =>
    intro a b hch hlast
    rcases List.chain_cons.mp hch with ⟨hax, hxs⟩
    cases xs with
    | nil =>
      simp at hlast
      subst hlast
      simpa using hax
    | cons y ys =>
      rw [List.getLast?_cons_cons] at hlast
      have hb := ih x b hxs hlast
      have hlen : ((x :: y :: ys : List ℚ).length : ℚ) * c
          = ((y :: ys : List ℚ).length : ℚ) * c + c := by
        push_cast [List.length_cons]
        ring
      rw [hlen]
      linarith

lemma matchesIdentity_refresh_if (d : LocationData) (i : Nat)
    (x : LocationRow) :
    matchesIdentity d (if x.id = i then refreshRow d x else x)
      = matchesIdentity d x := by
  by_cases h : x.id = i
  · rw [if_pos h]; rfl
  · rw [if_neg h]

lemma find?_updateWhere (d : LocationData) (i : Nat) (l : List LocationRow) :
    (updateWhere d i l).find? (matchesIdentity d)
      = (l.find? (matchesIdentity d)).map
          fun x => if x.id = i then refreshRow d x else x := by
  unfold updateWhere
  have hp : (matchesIdentity d ∘ fun x => if x.id = i then refreshRow d x else x)
      = matchesIdentity d := funext fun x => matchesIdentity_refresh_if d i x
  rw [List.find?_map, hp]

lemma filter_updateWhere (d : LocationData) (i : Nat) (l : List LocationRow) :
    (updateWhere d i l).filter (matchesIdentity d)
      = (l.filter (matchesIdentity d)).map
          fun x => if x.id = i then refreshRow d x else x := by
  unfold updateWhere
  have hp : (matchesIdentity d ∘ fun x => if x.id = i then refreshRow d x else x)
      = matchesIdentity d := funext fun x => matchesIdentity_refresh_if d i x
  rw [List.filter_map, hp]

lemma filter_eq_single_of_countP_le_one {α : Type} (p : α → Bool) :
    ∀ (l : List α) (a : α), l.countP p ≤ 1 → l.find? p = some a →
      l.filter p = [a] := by
  intro l
  induction l with
  | nil => intro a _ hf; simp at hf
  | cons x xs ih =>
    intro a hc hf
    by_cases hx : p x
    · rw [List.find?_cons_of_pos _ hx] at hf
      injection hf with hf
      subst hf
      rw [List.filter_cons_of_pos hx]
      rw [List.countP_cons] at hc
      simp only [hx, if_pos] at hc
      have hzero : xs.countP p = 0 := by omega
      have hnil : xs.filter p = [] := by
        rw [List.filter_eq_nil_iff]
        intro b hb
        by_contra hpb
        have := List.countP_eq_zero.mp hzero b hb
        simp [hpb] at this
      rw [hnil]
    · rw [List.find?_cons_of_neg _ hx] at hf
      rw [List.filter_cons_of_neg (by simp [hx])]
      rw [List.countP_cons] at hc
      simp only [hx, if_neg] at hc
      exact ih a (by omega) hf

/-- Claim C1 (divergence witness): after one location upsert and two successive
reading appends for London (observation epochs 100 then 200, in that order),
`get_recent_weather_data dbLondon ["London"]` does NOT return the most
recent reading per distinct city: both readings are stored, yet the single
returned view is built from the LAST row of the descending-ordered result
set — the OLDEST reading (epoch 100) — because the grouping `if` of the
Python source sits outside the `for` loop (mis-indentation at app.py lines
310-312), contradicting the claimed (and comment-documented) behaviour of
keeping the first, most recent, reading per city. -/
theorem getRecentReadings_surfaces_oldest_fetched_row :
    dbLondon.weather.map (fun w => w.last_updated_epoch) = [100, 200]
    ∧ (get_recent_weather_data dbLondon ["London"]).map
        (fun items => items.map fun it => it.current.last_updated_epoch)
        = .ok [100] :=
  ⟨by decide, rfl⟩

/-- Claim C2: for every database state and every input task list (one task per
submitted city, duplicates included), the batch response reports
`successful_cities + failed_cities = length of the input list`: every
submitted city is accounted for exactly once, as either a success or an
error entry. -/
theorem batch_counts_cover_input (db : DBState) (tasks : List FetchTask) :
    (process_weather_request db tasks).1.successful_cities
      + (process_weather_request db tasks).1.failed_cities = tasks.length := by
  have h := (foldl_procStep_lengths tasks ⟨[], [], [], db⟩).2
  simpa [process_weather_request] using h

/-- Claim C3: the batch-level `success` flag is true exactly when at least one
task is classified successful, and false exactly when the reported
successful-cities count is zero: per-city fetch failures are collected into
the error list without aborting the batch (the response is always built). -/
theorem batch_success_iff_any_city_succeeds (db : DBState)
    (tasks : List FetchTask) :
    ((process_weather_request db tasks).1.success = true
        ↔ ∃ t ∈ tasks, fetchSucceeds t = true)
    ∧ ((process_weather_request db tasks).1.success = false
        ↔ (process_weather_request db tasks).1.successful_cities = 0) := by
  have hres := (foldl_procStep_lengths tasks ⟨[], [], [], db⟩).1
  simp only [List.length_nil, Nat.zero_add] at hres
  constructor
  · show decide (0 < (tasks.foldl procStep ⟨[], [], [], db⟩).results.length) = true ↔ _
    rw [decide_eq_true_iff, hres]
    exact List.countP_pos_iff
  · show decide (0 < (tasks.foldl procStep ⟨[], [], [], db⟩).results.length) = false ↔ _
    rw [decide_eq_false_iff_not, not_lt, Nat.le_zero]
    exact Iff.rfl

/-- Claim C8: the rate limiter gate guarantees minimum spacing — starting from
any state (whose `last_request_time` is the start of the previous granted
call), the recorded call-start times of any sequence of acquisitions form a
chain in which each time is at least `MIN_REQUEST_INTERVAL` (100 ms) after
its predecessor, and consequently the K-th call start is at least
(K-1) × `MIN_REQUEST_INTERVAL` after the first.  `ds` lists the wall-clock
time elapsing before each acquisition; the gate is the single shared
`last_request_time` scalar, so this serialisation covers all callers. -/
theorem rate_limiter_enforces_min_spacing (ds : List ℚ) (s : RLState) :
    List.Chain (fun a b => a + MIN_REQUEST_INTERVAL ≤ b)
      s.last_request_time (runAcquires s ds).2
    ∧ (∀ t1 tK, ((runAcquires s ds).2).head? = some t1 →
        ((runAcquires s ds).2).getLast? = some tK →
        t1 + ((((runAcquires s ds).2).length - 1 : ℕ) : ℚ)
          * MIN_REQUEST_INTERVAL ≤ tK) := by
  refine ⟨runAcquires_chain ds s, ?_⟩
  intro t1 tK h1 hK
  have hch := runAcquires_chain ds s
  generalize hts : (runAcquires s ds).2 = ts at h1 hK hch
  cases ts with
  | nil => simp at h1
  | cons x rest =>
    simp only [List.head?_cons, Option.some.injEq] at h1
    subst h1
    rcases List.chain_cons.mp hch with ⟨_, hrest⟩
    cases rest with
    | nil =>
      simp only [List.getLast?_singleton, Option.some.injEq] at hK
      subst hK
      simp
    | cons y ys =>
      rw [List.getLast?_cons_cons] at hK
      have hb := chain_last_bound MIN_REQUEST_INTERVAL (y :: ys) x tK hrest hK
      have hlen : (((x :: y :: ys : List ℚ).length - 1 : ℕ) : ℚ)
          = (((y :: ys : List ℚ).length : ℕ) : ℚ) := by
        simp
      rw [hlen]
      exact hb

/-- Witness for C8: two acquisitions from the initial state, the first
arriving immediately and the second one second later; the recorded call
times are 1/10 and 11/10. -/
theorem rate_limiter_enforces_min_spacing_witness :
    List.Chain (fun a b => a + MIN_REQUEST_INTERVAL ≤ b)
      (RLState.mk 0 0).last_request_time (runAcquires ⟨0, 0⟩ [0, 1]).2
    ∧ (1 / 10 : ℚ) + ((((runAcquires (⟨0, 0⟩ : RLState) [0, 1]).2).length - 1 : ℕ)
        : ℚ) * MIN_REQUEST_INTERVAL ≤ 11 / 10 := by
  have h := rate_limiter_enforces_min_spacing [0, 1] ⟨0, 0⟩
  exact ⟨h.1, h.2 (1 / 10) (11 / 10) (by norm_num [runAcquires, rate_limited_request, MIN_REQUEST_INTERVAL]) (by norm_num [runAcquires, rate_limited_request, MIN_REQUEST_INTERVAL])⟩

/-- Claim C9: a stored numeric (DECIMAL) field whose value is exactly zero is
surfaced by the reconstruction of `get_recent_weather_data` as null, exactly
like a stored NULL, because `null_filler` maps every falsy value — `None`
and `0` alike — to `None`; end to end, a stored Zeroville reading with
temp_c = precip_mm = uv = wind_mph = 0 is returned with all four fields
null. -/
theorem zero_valued_fields_surfaced_as_null (r : JoinedRow) :
    (reconstructWeatherItem { r with temp_c := some 0 }).current.temp_c = none
    ∧ (reconstructWeatherItem { r with temp_c := none }).current.temp_c = none
    ∧ (reconstructWeatherItem { r with precip_mm := some 0 }).current.precip_mm = none
    ∧ (reconstructWeatherItem { r with uv := some 0 }).current.uv = none
    ∧ (reconstructWeatherItem { r with wind_mph := some 0 }).current.wind_mph = none
    ∧ (get_recent_weather_data dbZero ["Zeroville"]).map
        (fun items => items.map fun it =>
          (it.current.temp_c, it.current.precip_mm, it.current.uv,
           it.current.wind_mph))
        = .ok [(none, none, none, none)] := by
  refine ⟨?_, ?_, ?_, ?_, ?_, rfl⟩ <;> simp [reconstructWeatherItem, null_filler]

/-- Claim C10: whenever the SELECT of `get_recent_weather_data` returns zero
rows, the function does not return an empty list — the `for` loop never
assigns `city_name`, the following `if` reads the unassigned variable, and
the resulting `UnboundLocalError` propagates to the caller as a
storage-layer error. -/
theorem getRecentReadings_empty_result_raises (db : DBState)
    (city_names : List String) (limit : Nat)
    (h : fetchRows db city_names limit = []) :
    get_recent_weather_data db city_names limit
        = .error "UnboundLocalError: local variable \x27city_name\x27 referenced before assignment"
    ∧ ∀ items, get_recent_weather_data db city_names limit ≠ .ok items := by
  unfold get_recent_weather_data
  rw [h]
  exact ⟨rfl, by simp⟩

/-- Witness for C10: the empty store with a queried city has no rows and the
call reports the unbound-local error. -/
theorem getRecentReadings_empty_result_raises_witness :
    fetchRows db0 ["London"] 10 = []
    ∧ get_recent_weather_data db0 ["London"] 10
        = .error "UnboundLocalError: local variable \x27city_name\x27 referenced before assignment" :=
  ⟨rfl, (getRecentReadings_empty_result_raises db0 ["London"] 10 rfl).1⟩

/-- Claim C4 (counterexample): `insert_or_get_location` called twice on the
fresh store with identical data whose `region` is NULL returns id 1 and then
id 2, leaving TWO rows with that very identity — the SELECT's `region = %s`
comparison never matches a NULL region (SQL three-valued logic), so the
second call re-inserts, and the UNIQUE constraint does not fire because
PostgreSQL treats NULL regions as distinct. -/
theorem upsert_null_region_not_idempotent :
    (insert_or_get_location db0 springfieldNoRegion).map Prod.fst = .ok 1
    ∧ (insert_or_get_location dbSpringfield1 springfieldNoRegion).map
        Prod.fst = .ok 2
    ∧ (match insert_or_get_location dbSpringfield1 springfieldNoRegion with
       | .ok (_, dbF) => dbF.locations.countP fun r =>
           r.name == "Springfield" && r.country == "United States"
             && r.region == none
       | .error _ => 0) = 2 :=
  ⟨rfl, rfl, by decide⟩

/-- Claim C4 (amended): for every identity whose `region` is NON-NULL,
`insert_or_get_location` called twice with identical
(name, country, region) returns the same id both times, performs no second
insert (the row count is unchanged by the second call, which takes the
update path), and leaves exactly one row for that identity, with its
mutable fields (coordinates, timezone, local time) refreshed to the new
data.  The `countP ≤ 1` hypothesis states that the store does not already
hold duplicate rows for this identity — an invariant of every state the
code itself can reach, since inserts are guarded by the lookup and by the
UNIQUE constraint. -/
theorem upsert_idempotent_for_nonnull_region
    (nm co rg : String) (d : LocationData) (db : DBState)
    (hn : d.name = some nm) (hco : d.country = some co)
    (hr : d.region = some rg)
    (huniq : db.locations.countP (matchesIdentity d) ≤ 1) :
    ∃ i db1 db2,
      insert_or_get_location db d = .ok (i, db1)
      ∧ insert_or_get_location db1 d = .ok (i, db2)
      ∧ db2.locations.length = db1.locations.length
      ∧ (db2.locations.filter (matchesIdentity d)).map
          (fun r => (r.lat, r.lon, r.tz_id, r.localtime_epoch,
            r.localtime_string))
          = [(d.lat, d.lon, d.tz_id, d.localtime_epoch,
              d.localtime_string)] := by
  have hupdate : ∀ (dbx : DBState) (rx : LocationRow),
      List.find? (matchesIdentity d) dbx.locations = some rx →
      insert_or_get_location dbx d
        = .ok (rx.id,
            { dbx with locations := updateWhere d rx.id dbx.locations }) := by
    intro dbx rx hf
    unfold insert_or_get_location
    rw [hf]
  cases hfind : db.locations.find? (matchesIdentity d) with
  | some r =>
    have hfilter : db.locations.filter (matchesIdentity d) = [r] :=
      filter_eq_single_of_countP_le_one _ _ r huniq hfind
    have hfind1 : List.find? (matchesIdentity d)
        (updateWhere d r.id db.locations) = some (refreshRow d r) := by
      rw [find?_updateWhere, hfind]
      simp
    refine ⟨r.id,
      { db with locations := updateWhere d r.id db.locations },
      { db with locations :=
          updateWhere d r.id (updateWhere d r.id db.locations) },
      hupdate db r hfind, hupdate _ (refreshRow d r) hfind1, ?_, ?_⟩
    · simp [updateWhere]
    · rw [filter_updateWhere, filter_updateWhere, hfilter]
      simp [refreshRow]
  | none =>
    have hall := List.find?_eq_none.mp hfind
    have hallf : ∀ x ∈ db.locations, matchesIdentity d x = false := by
      intro x hx
      exact Bool.eq_false_iff.mpr (hall x hx)
    have hany : db.locations.any (matchesIdentity d) = false :=
      List.any_eq_false.mpr hall
    have hpnew : matchesIdentity d (newLocRow db nm co d) = true := by
      simp [matchesIdentity, sqlEqName, sqlEqRegion, newLocRow, hn, hco, hr]
    have hfirst : insert_or_get_location db d
        = .ok (db.nextLocId,
            { db with locations := db.locations ++ [newLocRow db nm co d],
                      nextLocId := db.nextLocId + 1 }) := by
      unfold insert_or_get_location
      rw [hfind, hn, hco]
      simp [hany]
    have hfind1 : List.find? (matchesIdentity d)
        (db.locations ++ [newLocRow db nm co d])
        = some (newLocRow db nm co d) := by
      rw [List.find?_append, hfind]
      simp [List.find?_cons, hpnew]
    have hfilternil : db.locations.filter (matchesIdentity d) = [] := by
      rw [List.filter_eq_nil_iff]
      exact fun b hb => hall b hb
    refine ⟨db.nextLocId,
      { db with locations := db.locations ++ [newLocRow db nm co d],
                nextLocId := db.nextLocId + 1 },
      { db with locations := updateWhere d (newLocRow db nm co d).id
                  (db.locations ++ [newLocRow db nm co d]),
                nextLocId := db.nextLocId + 1 },
      hfirst, hupdate _ (newLocRow db nm co d) hfind1, ?_, ?_⟩
    · simp [updateWhere]
    · rw [filter_updateWhere, List.filter_append, hfilternil]
      simp only [List.nil_append]
      rw [List.filter_cons_of_pos hpnew]
      simp [List.filter_nil, newLocRow, refreshRow]

/-- Witness for the amended C4: double upsert of the (non-NULL-region)
London identity on the fresh store. -/
theorem upsert_idempotent_for_nonnull_region_witness :
    ∃ i db1 db2,
      insert_or_get_location db0 londonLoc = .ok (i, db1)
      ∧ insert_or_get_location db1 londonLoc = .ok (i, db2)
      ∧ db2.locations.length = db1.locations.length
      ∧ (db2.locations.filter (matchesIdentity londonLoc)).map
          (fun r => (r.lat, r.lon, r.tz_id, r.localtime_epoch,
            r.localtime_string))
          = [(londonLoc.lat, londonLoc.lon, londonLoc.tz_id,
              londonLoc.localtime_epoch, londonLoc.localtime_string)] :=
  upsert_idempotent_for_nonnull_region "London" "United Kingdom"
    "City of London, Greater London" londonLoc db0 rfl rfl rfl (by decide)

/-- Claim C5: a syntactically successful HTTP response (here status 200) whose
JSON body lacks the `location` key or the `current` key is classified as a
failure: the fetch returns `(city, None)` with the store untouched (no
upsert, no append), and the batch counts the city as failed with a
"No data received" error entry, not as successful. -/
theorem malformed_payload_fails_without_storage (db : DBState) (f : Bool)
    (city : String) (d : ProviderBody)
    (h : d.location = none ∨ d.current = none) :
    get_weather_for_city db f city (.status 200 (some d))
        = ((city, .invalid), db)
    ∧ (process_weather_request db [(city, .status 200 (some d), f)]).1
        = { success := false, successful_cities := 0, failed_cities := 1,
            errors := ["No data received for " ++ city] }
    ∧ (process_weather_request db [(city, .status 200 (some d), f)]).2
        = db := by
  have h1 : get_weather_for_city db f city (.status 200 (some d))
      = ((city, .invalid), db) := by
    simp only [get_weather_for_city]
    rw [if_neg (by omega)]
    rcases h with h | h
    · rw [h]
    · rcases hl : d.location with _ | loc
      · rfl
      · rw [h]
  have hstep : procStep ⟨[], [], [], db⟩ (city, .status 200 (some d), f)
      = ⟨[], ["No data received for " ++ city], [], db⟩ := by
    unfold procStep
    dsimp only
    rw [h1]
    rfl
  have hbatch : process_weather_request db [(city, .status 200 (some d), f)]
      = ({ success := false, successful_cities := 0, failed_cities := 1,
           errors := ["No data received for " ++ city] }, db) := by
    unfold process_weather_request
    rw [List.foldl_cons, List.foldl_nil, hstep]
    rfl
  exact ⟨h1, by rw [hbatch], by rw [hbatch]⟩

/-- Witness for C5: a body with a `location` block but no `current` key. -/
theorem malformed_payload_fails_without_storage_witness :
    get_weather_for_city db0 false "London" (.status 200 (some noCurrentBody))
        = (("London", .invalid), db0)
    ∧ (process_weather_request db0
        [("London", .status 200 (some noCurrentBody), false)]).1
        = { success := false, successful_cities := 0, failed_cities := 1,
            errors := ["No data received for " ++ "London"] }
    ∧ (process_weather_request db0
        [("London", .status 200 (some noCurrentBody), false)]).2 = db0 :=
  malformed_payload_fails_without_storage db0 false "London" noCurrentBody
    (Or.inr rfl)

/-- Claim C6: for a structurally valid provider response (non-error status,
body with `location` and `current`), the fetch outcome is the provider
payload regardless of the database state and regardless of whether the
persistence step fails (its exception is swallowed); in the batch, such a
city is counted successful with no error-list entry. -/
theorem storage_failure_invisible_to_fetch (db db' : DBState) (f f' : Bool)
    (city : String) (code : Nat) (d : ProviderBody) (loc : LocationData)
    (cur : CurrentData) (hcode : code < 400) (hl : d.location = some loc)
    (hc : d.current = some cur) :
    (get_weather_for_city db f city (.status code (some d))).1
        = (city, .payload d)
    ∧ (get_weather_for_city db f city (.status code (some d))).1
        = (get_weather_for_city db' f' city (.status code (some d))).1
    ∧ (d.extraErrorKey = false →
        (process_weather_request db [(city, .status code (some d), f)]).1
          = { success := true, successful_cities := 1, failed_cities := 0,
              errors := [] }) := by
  have h1 : ∀ (dbx : DBState) (fx : Bool),
      (get_weather_for_city dbx fx city (.status code (some d))).1
        = (city, .payload d) := by
    intro dbx fx
    simp only [get_weather_for_city]
    rw [if_neg (by omega)]
    rw [hl, hc]
  refine ⟨h1 db f, (h1 db f).trans (h1 db' f').symm, ?_⟩
  intro he
  have hstep : procStep ⟨[], [], [], db⟩ (city, .status code (some d), f)
      = ⟨[d], [], [city],
          (get_weather_for_city db f city (.status code (some d))).2⟩ := by
    unfold procStep
    dsimp only
    rw [h1 db f]
    simp [he]
  unfold process_weather_request
  rw [List.foldl_cons, List.foldl_nil, hstep]
  rfl

/-- Witness for C6: the Oslo payload at status 200 with an injected
persistence failure on one side and none on the other. -/
theorem storage_failure_invisible_to_fetch_witness :
    (get_weather_for_city db0 true "Oslo" (.status 200 (some osloBody))).1
        = ("Oslo", .payload osloBody)
    ∧ (get_weather_for_city db0 true "Oslo" (.status 200 (some osloBody))).1
        = (get_weather_for_city dbLondon false "Oslo"
            (.status 200 (some osloBody))).1
    ∧ (osloBody.extraErrorKey = false →
        (process_weather_request db0
          [("Oslo", .status 200 (some osloBody), true)]).1
          = { success := true, successful_cities := 1, failed_cities := 0,
              errors := [] }) :=
  storage_failure_invisible_to_fetch db0 dbLondon true false "Oslo" 200
    osloBody osloLoc osloCur (by omega) rfl rfl

/-- Claim C7 (counterexample): a final response status of 300 — a non-2xx
status outside {400, 401, 403} — does NOT yield an `http_error`-tagged
failure: `raise_for_status` raises only for statuses 400-599, so the body
is parsed and, being structurally valid, the fetch is classified as a plain
SUCCESS, refuting "any other non-2xx status yields http_error carrying the
status code". -/
theorem non2xx_redirect_status_classified_success :
    (get_weather_for_city db0 false "Oslo" (.status 300 (some osloBody))).1
      = ("Oslo", .payload osloBody) := rfl

/-- Claim C7 (amended): the typed failure taxonomy as the code realises it —
a timeout yields tag `timeout`; status 400 yields `not_found`; 401 yields
`auth`; 403 (quota exceeded) yields tag `limit` (the spec's `rate_limited`
category); any other ERROR status (400-599, the statuses for which
`raise_for_status` raises) yields tag `http` (the spec's `http_error`
category) with the status code carried in the message; any other exception
yields `unexpected`.  Statuses below 400 are not raised by the HTTP layer
and instead fall through to body parsing and structural validation. -/
theorem failure_taxonomy_by_cause (db : DBState) (f : Bool)
    (city msg : String) (code : Nat) (body : Option ProviderBody) :
    (get_weather_for_city db f city .timeout).1.2
        = .errDict "timeout" ("Request timeout for " ++ city)
    ∧ (get_weather_for_city db f city (.connError msg)).1.2
        = .errDict "unexpected" ("Unexpected error: " ++ msg)
    ∧ (get_weather_for_city db f city (.status 400 body)).1.2
        = .errDict "not_found" ("City \x27" ++ city ++ "\x27 not found")
    ∧ (get_weather_for_city db f city (.status 401 body)).1.2
        = .errDict "auth" "Invalid API key"
    ∧ (get_weather_for_city db f city (.status 403 body)).1.2
        = .errDict "limit" "API request limit exceeded"
    ∧ (400 ≤ code → code < 600 → code ≠ 400 → code ≠ 401 → code ≠ 403 →
        (get_weather_for_city db f city (.status code body)).1.2
          = .errDict "http"
              ("HTTP " ++ toString code ++ " error for " ++ city)) := by
  refine ⟨rfl, rfl, ?_, ?_, ?_, ?_⟩
  · norm_num [get_weather_for_city]
  · norm_num [get_weather_for_city]
  · norm_num [get_weather_for_city]
  · intro h1 h2 h3 h4 h5
    simp only [get_weather_for_city]
    rw [if_pos ⟨h1, h2⟩, if_neg h3, if_neg h4, if_neg h5]

/-- Witness for the amended C7: a server error (status 500) is tagged
`http` with the status code in the message. -/
theorem failure_taxonomy_by_cause_witness :
    (get_weather_for_city db0 false "Paris" (.status 500 none)).1.2
      = .errDict "http" ("HTTP " ++ toString 500 ++ " error for " ++ "Paris") := by
  have h := failure_taxonomy_by_cause db0 false "Paris" "boom" 500 none
  exact h.2.2.2.2.2 (by omega) (by omega) (by decide) (by decide) (by decide)
